import Mathlib

/-!
Shallow embedding of the EnviDat `cog-generator` pipeline (`src/main.py`).

The two repository entry points are modelled:

* `process_cog_with_params` (main.py lines 54-154): input dispatch over
  string/`Path`, `bytes` and open `DatasetReader` data, profile and
  profile-option selection, GDAL translate invocation and COG validation;
* `process_cog_list` (main.py lines 157-266): bucket construction, the
  string-to-list normalisation, the per-key idempotency gate, optional
  replication, preload/stream acquisition, upload and cleanup.

External collaborators (the S3 store, rasterio, rio-cogeo) are oracles in an
environment record; each job's interaction with them is recorded as a trace
of events (`Ev`), and exceptional exits are `Outcome.errored`/`Except.error`
values mirroring where the Python code raises.
-/

namespace CogGen

/-- A value stored in a GDAL profile-option dictionary: the repository only
ever stores ints and strings (main.py lines 57-65, 110-115, 131). -/
inductive OptVal where
  | nat (n : Nat)
  | str (s : String)
deriving DecidableEq

/-- A Python `dict` with string keys, modelled as an association list in
insertion order (first occurrence of a key is its binding). -/
abbrev OptMap := List (String × OptVal)

/-- `d[k] = v` / one step of `dict.update`: replace the binding in place if
the key is present, else append it (CPython dicts preserve insertion order). -/
def setKey : OptMap → String → OptVal → OptMap
  | [], k, v => [(k, v)]
  | (k0, v0) :: rest, k, v =>
    if k0 = k then (k, v) :: rest else (k0, v0) :: setKey rest k v

/-- Python `dict` lookup on the association-list model. -/
def lookupOpt : OptMap → String → Option OptVal
  | [], _ => none
  | (k0, v0) :: rest, k => if k0 = k then some v0 else lookupOpt rest k

/-- The module-level default `profile_options` dict of
`process_cog_with_params` (main.py lines 57-65).  Python allocates this
dict once, when `def` executes. -/
def default_profile_options : OptMap :=
  [("blockxsize", OptVal.nat 256),
   ("blockysize", OptVal.nat 256),
   ("BLOCKSIZE", OptVal.nat 256),
   ("LEVEL", OptVal.nat 9),
   ("ZLEVEL", OptVal.nat 9),
   ("BIGTIFF", OptVal.str "IF_SAFER"),
   ("NUM_THREADS", OptVal.str "ALL_CPUS")]

/-- The profile identifier chosen inside `process_cog_with_params`
(main.py lines 95, 97, 117, 130): `"deflate"` by default, unchanged by the
`is_dem` branch, `"jpeg"` only in the `elif compress` branch. -/
def selectProfile (compress is_dem : Bool) : String :=
  if is_dem then "deflate" else if compress then "jpeg" else "deflate"

/-- The profile identifier computed by `process_cog_list` for destination
keys (main.py line 204): `profile = "jpeg" if compress else "deflate"`,
with no look at `is_dem`. -/
def enumProfile (compress : Bool) : String :=
  if compress then "jpeg" else "deflate"

/-- The `profile_options` updates performed by `process_cog_with_params`
(main.py lines 97-131), expressed as a function from the dict the call
starts with to the dict it leaves behind.  In Python these are in-place
`dict.update` calls on the argument object. -/
def selectOptions (profile_options : OptMap) (compress is_dem smooth_dem : Bool)
    (dtypes : List String) : OptMap :=
  if is_dem then
    let o1 :=
      if dtypes.all (fun x => x = "float32") then
        setKey profile_options "PREDICTOR" (OptVal.nat 3)
      else
        setKey profile_options "PREDICTOR" (OptVal.nat 2)
    if smooth_dem then setKey o1 "RESAMPLING" (OptVal.str "CUBIC")
    else setKey o1 "RESAMPLING" (OptVal.str "BILINEAR")
  else if compress then
    setKey profile_options "QUALITY" (OptVal.nat 85)
  else
    profile_options

/-- Because Python's default `profile_options` dict is allocated once and
mutated in place, the dict a defaulted call leaves behind is exactly the
dict the next defaulted call starts from.  This is the post-call state of
the module-level default after one call of `process_cog_with_params` that
used the default. -/
def defaultAfterCall (compress is_dem smooth_dem : Bool) (dtypes : List String) : OptMap :=
  selectOptions default_profile_options compress is_dem smooth_dem dtypes

/-- The spec's "floating-point sample type": the floating-point dtype tags
rasterio reports for a band (`float32`, `float64`). -/
def isFloatingDtype (s : String) : Bool :=
  s = "float32" || s = "float64"

/-! ### POSIX path / S3 key manipulation (`pathlib` semantics) -/

/-- Split a character list at every occurrence of `c` (helper for
splitting keys and paths at `/`). -/
def splitCharAux (c : Char) : List Char → List Char → List (List Char)
  | [], acc => [acc.reverse]
  | x :: xs, acc =>
    if x = c then acc.reverse :: splitCharAux c xs []
    else splitCharAux c xs (x :: acc)

/-- Split a POSIX path / S3 key into its `/`-separated components. -/
def splitSlash (s : String) : List String :=
  (splitCharAux '/' s.toList []).map String.mk

/-- Rejoin `/`-separated components. -/
def joinSlash : List String → String
  | [] => ""
  | [x] => x
  | x :: xs => x ++ "/" ++ joinSlash xs

/-- Index of the last `'.'` in a character list, if any. -/
def rfindDot : List Char → Option Nat
  | [] => none
  | c :: cs =>
    match rfindDot cs with
    | some i => some (i + 1)
    | none => if c = '.' then some 0 else none

/-- `pathlib` `stem`/`suffix` of a final path component: the suffix is the
part from the last dot when that dot is neither the first nor the last
character of the name (`PurePath.suffix`: `0 < i < len(name) - 1`). -/
def pathSplitExt (name : String) : String × String :=
  let cs := name.toList
  match rfindDot cs with
  | some i =>
    if 0 < i && i + 1 < cs.length then (String.mk (cs.take i), String.mk (cs.drop i))
    else (name, "")
  | none => (name, "")

/-- `PurePath.with_name`: replace the final component of a path/key. -/
def withNameKey (key newName : String) : String :=
  joinSlash ((splitSlash key).dropLast ++ [newName])

/-- The destination naming rule shared by main.py lines 134-136 and
209-212: `src.with_name(src.stem + "_COG_" + profile + src.suffix)`. -/
def withCogName (key profileId : String) : String :=
  let name := (splitSlash key).getLastD ""
  let se := pathSplitExt name
  withNameKey key (se.1 ++ "_COG_" ++ profileId ++ se.2)

/-! ### URL quoting (`urllib.parse.quote(key, safe="")`, main.py line 247) -/

/-- Bytes `urllib.parse.quote` never escapes: ASCII letters, digits and
`_ . - ~`. -/
def isUnreservedByte (b : UInt8) : Bool :=
  (65 ≤ b.toNat && b.toNat ≤ 90) || (97 ≤ b.toNat && b.toNat ≤ 122) ||
  (48 ≤ b.toNat && b.toNat ≤ 57) ||
  b.toNat = 95 || b.toNat = 46 || b.toNat = 45 || b.toNat = 126

/-- Upper-case hex digit of a value `< 16`. -/
def hexDigitChar (n : Nat) : Char :=
  if n < 10 then Char.ofNat (n + 48) else Char.ofNat (n + 55)

/-- Percent-encode one byte unless it is unreserved. -/
def quoteByte (b : UInt8) : String :=
  if isUnreservedByte b then String.mk [Char.ofNat b.toNat]
  else String.mk ['%', hexDigitChar (b.toNat / 16), hexDigitChar (b.toNat % 16)]

/-- `urllib.parse.quote(s, safe="")`: percent-encode every UTF-8 byte that
is not unreserved (in particular `/` is encoded). -/
def urlQuote (s : String) : String :=
  s.toUTF8.toList.foldl (fun acc b => acc ++ quoteByte b) ""

/-- The remote-open URL built by `process_cog_list`
(main.py lines 250-252). -/
def streamUrl (bucket_name key : String) : String :=
  "https://" ++ bucket_name ++ ".s3-zh.os.switch.ch/" ++ urlQuote key

/-! ### Events, errors and outcomes -/

/-- One observable interaction of the pipeline with its collaborators, or
one local scratch-file lifecycle step.  `createFile`/`releaseFile` are the
`Created`/`Released` transitions of a `ScratchResource`. -/
inductive Ev where
  | bucketInit (bucket : String) (is_new : Bool) (is_public : Bool)
  | checkExists (key : String)
  | transfer (src_bucket src_key dst_bucket dst_key : String)
  | download (key : String) (local_path : String)
  | openRemote (url : String)
  | openLocal (path : String)
  | translate (dst_path profileId : String) (opts : OptMap) (web_optimized : Bool)
  | createFile (path : String)
  | validate (path : String) (ok : Bool)
  | upload (key : String) (local_path : String)
  | releaseFile (path : String)
deriving DecidableEq

/-- The spec's per-job failure taxonomy; each value stands for an exception
propagating out of the corresponding Python call. -/
inductive Err where
  | notFound
  | accessDenied
  | transcodeFailure
  | storageIO
  | invalidInput
deriving DecidableEq

/-- Termination of one job of `process_cog_list`: skipped by the
idempotency gate, completed, or aborted by a raised exception. -/
inductive Outcome where
  | skipped
  | success
  | errored (e : Err)
deriving DecidableEq

/-- The three legal input shapes of `process_cog_with_params`
(main.py line 55): a local path string/`Path`, raw `bytes`, or an already
open rasterio `DatasetReader`. -/
inductive SourceData where
  | localPath (p : String)
  | bytesData
  | datasetReader
deriving DecidableEq

/-- Oracles for one `process_cog_with_params` call: results of the
external collaborators (filesystem, rasterio, rio-cogeo) and the names the
OS hands out (`NamedTemporaryFile` / `uuid4`). -/
structure PEnv where
  /-- `os.getenv("TEMP_DIR", default="/tmp")`. -/
  temp_dir : String
  /-- `src_path.is_file()` for a local-path input (main.py line 74). -/
  isFile : Bool
  /-- `geotiff.dtypes` of the opened dataset (main.py line 109). -/
  dtypes : List String
  /-- whether `cog_translate` returns normally (main.py line 43). -/
  transcodeOk : Bool
  /-- the validity verdict `cog_validate` returns (main.py line 152). -/
  validateOk : Bool
  /-- the fresh basename for `NamedTemporaryFile` / `uuid.uuid4()`. -/
  tempName : String

/-- Profile selection, destination-path derivation, `cog_translate` and
`cog_validate` (main.py lines 94-154), shared by every input shape.  On
engine failure `cog_translate` raises and no artifact is produced; on
success the artifact exists at `dst_path` and `cog_validate`'s verdict is
computed — and, as in the source, not inspected. -/
def transcodeSteps (src_path : String) (env : PEnv)
    (compress is_dem smooth_dem web_optimized : Bool) :
    List Ev × Except Err String :=
  let profileId := selectProfile compress is_dem
  let opts := selectOptions default_profile_options compress is_dem smooth_dem env.dtypes
  let dst := withCogName src_path profileId
  if env.transcodeOk then
    ([Ev.translate dst profileId opts web_optimized, Ev.createFile dst,
      Ev.validate dst env.validateOk], Except.ok dst)
  else
    ([Ev.translate dst profileId opts web_optimized], Except.error Err.transcodeFailure)

/-- `process_cog_with_params` (main.py lines 54-154): dispatch on the input
shape, then transcode.  A local path that is not a file raises `OSError`
before anything is allocated or opened (lines 72-75); a `bytes` input is
written to a `NamedTemporaryFile(delete=False, suffix=".tiff")` (lines
77-82) that no code ever deletes; a `DatasetReader` input only has a fresh
uuid-based `src_path` computed for it, with no local file and no open
(lines 84-88).  On success the produced artifact's path is returned. -/
def process_cog_with_params (data : SourceData) (env : PEnv)
    (compress is_dem smooth_dem web_optimized : Bool) :
    List Ev × Except Err String :=
  match data with
  | SourceData.localPath p =>
    if env.isFile then
      let r := transcodeSteps p env compress is_dem smooth_dem web_optimized
      (Ev.openLocal p :: r.1, r.2)
    else
      ([], Except.error Err.invalidInput)
  | SourceData.bytesData =>
    let t := env.temp_dir ++ "/" ++ env.tempName ++ ".tiff"
    let r := transcodeSteps t env compress is_dem smooth_dem web_optimized
    (Ev.createFile t :: Ev.openLocal t :: r.1, r.2)
  | SourceData.datasetReader =>
    let p := env.temp_dir ++ "/" ++ env.tempName ++ ".tif"
    transcodeSteps p env compress is_dem smooth_dem web_optimized

/-- The keyword configuration of one `process_cog_list` call, together with
the injected `BUCKET_NAME` environment value (main.py lines 157-193). -/
structure Cfg where
  bucket_name : String
  replicate_from : Option String
  preload : Bool
  overwrite : Bool
  compress : Bool
  is_dem : Bool
  smooth_dem : Bool
  web_optimized : Bool

/-- Oracles for one batch, keyed by the job's tiff key (the S3 store's
responses and the per-job fresh temporary names). -/
structure ListEnv where
  /-- `os.getenv("TEMP_DIR", default="/tmp")`. -/
  temp_dir : String
  /-- `s3_cog.check_file_exists` on a destination key (main.py line 215). -/
  existsAtDest : String → Bool
  /-- whether `s3_from.transfer` succeeds for this key (line 227). -/
  transferOk : String → Bool
  /-- whether `s3_cog.download_file` succeeds for this key (line 235). -/
  downloadOk : String → Bool
  /-- whether `rasterio.open` on the stream URL succeeds (line 250). -/
  remoteOpenOk : String → Bool
  /-- whether `s3_cog.upload_file` succeeds for this key (line 263). -/
  uploadOk : String → Bool
  /-- `geotiff.dtypes` of this key's dataset. -/
  dtypes : String → List String
  /-- whether `cog_translate` returns normally for this key. -/
  transcodeOk : String → Bool
  /-- the verdict `cog_validate` returns for this key's artifact. -/
  validateOk : String → Bool
  /-- the fresh temporary basename the OS hands this job. -/
  tempName : String → String

/-- The `PEnv` a `process_cog_with_params` call made from the batch loop
runs under; a preloaded input file exists on disk (it was just
downloaded). -/
def jobPEnv (env : ListEnv) (key : String) : PEnv :=
  { temp_dir := env.temp_dir, isFile := true, dtypes := env.dtypes key,
    transcodeOk := env.transcodeOk key, validateOk := env.validateOk key,
    tempName := env.tempName key }

/-- The upload/cleanup tail of one job (main.py lines 262-266):
`try: upload_file finally: unlink` — the upload is attempted, the artifact
is unlinked unconditionally, and an upload exception then propagates. -/
def uploadPhase (dst_key cog_path : String) (ok : Bool) : List Ev × Outcome :=
  ([Ev.upload dst_key cog_path, Ev.releaseFile cog_path],
   if ok then Outcome.success else Outcome.errored Err.storageIO)

/-- One iteration of the `for tiff_key in tiff_keys` loop of
`process_cog_list` (main.py lines 206-266): destination-key derivation,
idempotency gate, optional replication, preload or stream acquisition,
transcode via `process_cog_with_params`, upload and cleanup.  The returned
`Outcome.errored` values are exactly the loop body's uncaught
exceptions. -/
def runJob (cfg : Cfg) (env : ListEnv) (key : String) : List Ev × Outcome :=
  let dst_key := withCogName key (enumProfile cfg.compress)
  let gateEvs : List Ev := if cfg.overwrite then [] else [Ev.checkExists dst_key]
  if !cfg.overwrite && env.existsAtDest dst_key then
    (gateEvs, Outcome.skipped)
  else
    let repEvs : List Ev :=
      match cfg.replicate_from with
      | some b => [Ev.transfer b key cfg.bucket_name key]
      | none => []
    let repOk :=
      match cfg.replicate_from with
      | some _ => env.transferOk key
      | none => true
    if !repOk then
      (gateEvs ++ repEvs, Outcome.errored Err.storageIO)
    else if cfg.preload then
      let t := env.temp_dir ++ "/" ++ env.tempName key ++ ".tif"
      let acqEvs := [Ev.createFile t, Ev.download key t]
      if !env.downloadOk key then
        (gateEvs ++ repEvs ++ acqEvs ++ [Ev.releaseFile t], Outcome.errored Err.storageIO)
      else
        let r := process_cog_with_params (SourceData.localPath t) (jobPEnv env key)
          cfg.compress cfg.is_dem cfg.smooth_dem cfg.web_optimized
        match r.2 with
        | Except.error e =>
          (gateEvs ++ repEvs ++ acqEvs ++ r.1 ++ [Ev.releaseFile t], Outcome.errored e)
        | Except.ok cog =>
          let up := uploadPhase dst_key cog (env.uploadOk key)
          (gateEvs ++ repEvs ++ acqEvs ++ r.1 ++ [Ev.releaseFile t] ++ up.1, up.2)
    else
      let openEvs := [Ev.openRemote (streamUrl cfg.bucket_name key)]
      if !env.remoteOpenOk key then
        (gateEvs ++ repEvs ++ openEvs, Outcome.errored Err.accessDenied)
      else
        let r := process_cog_with_params SourceData.datasetReader (jobPEnv env key)
          cfg.compress cfg.is_dem cfg.smooth_dem cfg.web_optimized
        match r.2 with
        | Except.error e =>
          (gateEvs ++ repEvs ++ openEvs ++ r.1, Outcome.errored e)
        | Except.ok cog =>
          let up := uploadPhase dst_key cog (env.uploadOk key)
          (gateEvs ++ repEvs ++ openEvs ++ r.1 ++ up.1, up.2)

/-- The batch loop: jobs run in list order; a job that raises aborts the
whole loop (the loop body has no exception handler — only the inner
`try/finally` for cleanup), so later keys are never reached. -/
def runJobs (cfg : Cfg) (env : ListEnv) : List String → List Ev × List (String × Outcome)
  | [] => ([], [])
  | k :: ks =>
    let r := runJob cfg env k
    match r.2 with
    | Outcome.errored e => (r.1, [(k, Outcome.errored e)])
    | o =>
      let rest := runJobs cfg env ks
      (r.1 ++ rest.1, (k, o) :: rest.2)

/-- The `tiff_keys` argument of `process_cog_list` (main.py line 158):
either a single string or a list of keys. -/
inductive TiffKeys where
  | str (s : String)
  | list (l : List String)
deriving DecidableEq

/-- Main.py lines 195-197: a string input is wrapped into a one-element
list. -/
def toKeyList : TiffKeys → List String
  | TiffKeys.str s => [s]
  | TiffKeys.list l => l

/-- `process_cog_list` (main.py lines 157-266): the working bucket is
constructed with `is_new=True, is_public=True` (line 199), the optional
replication source bucket with defaults (line 202), then the jobs run in
order.  Result: the full event trace and the per-job outcomes up to and
including the first job whose exception aborts the batch. -/
def process_cog_list (tiff_keys : TiffKeys) (cfg : Cfg) (env : ListEnv) :
    List Ev × List (String × Outcome) :=
  let keys := toKeyList tiff_keys
  let initEvs : List Ev :=
    Ev.bucketInit cfg.bucket_name true true ::
      (match cfg.replicate_from with
       | some b => [Ev.bucketInit b false false]
       | none => [])
  let r := runJobs cfg env keys
  (initEvs ++ r.1, r.2)

/-! ### Scratch-resource accounting -/

/-- The paths of the scratch files a trace creates, in order. -/
def createdPaths (evs : List Ev) : List String :=
  evs.filterMap fun e =>
    match e with
    | Ev.createFile p => some p
    | _ => none

/-- The paths of the scratch files a trace releases, in order. -/
def releasedPaths (evs : List Ev) : List String :=
  evs.filterMap fun e =>
    match e with
    | Ev.releaseFile p => some p
    | _ => none

/-! ### Concrete configurations and environments used in the theorems -/

/-- A baseline batch configuration: preload acquisition, no replication,
all classification flags off. -/
def baseCfg : Cfg :=
  { bucket_name := "cog", replicate_from := none, preload := true, overwrite := false,
    compress := false, is_dem := false, smooth_dem := false, web_optimized := false }

/-- An environment in which every collaborator succeeds, no destination
key exists yet, and validation reports the artifact valid. -/
def allOkEnv : ListEnv :=
  { temp_dir := "/tmp", existsAtDest := fun _ => false, transferOk := fun _ => true,
    downloadOk := fun _ => true, remoteOpenOk := fun _ => true, uploadOk := fun _ => true,
    dtypes := fun _ => ["uint8"], transcodeOk := fun _ => true, validateOk := fun _ => true,
    tempName := fun _ => "u" }

/-- `allOkEnv`, except that `cog_validate` reports the artifact invalid. -/
def invalidCogEnv : ListEnv := { allOkEnv with validateOk := fun _ => false }

/-- `allOkEnv`, except that every destination key already exists. -/
def destExistsEnv : ListEnv := { allOkEnv with existsAtDest := fun _ => true }

/-- `allOkEnv`, except that the transcode engine fails deterministically on
the second of three jobs, and each job gets its own temporary name. -/
def midFailEnv : ListEnv :=
  { allOkEnv with
    transcodeOk := fun k => if k = "a/j2.tif" then false else true,
    tempName := fun k => if k = "a/j1.tif" then "t1" else if k = "a/j2.tif" then "t2" else "t3" }

/-- `allOkEnv`, except that every download fails. -/
def downloadFailEnv : ListEnv := { allOkEnv with downloadOk := fun _ => false }

/-- A `process_cog_with_params` environment for a well-formed input. -/
def bytesPEnv : PEnv :=
  { temp_dir := "/tmp", isFile := true, dtypes := ["uint8"], transcodeOk := true,
    validateOk := true, tempName := "b" }

/-- A `process_cog_with_params` environment in which the local source path
does not reference an existing file. -/
def missingFilePEnv : PEnv :=
  { temp_dir := "/tmp", isFile := false, dtypes := [], transcodeOk := true,
    validateOk := true, tempName := "x" }

/-! ### Claim theorems -/

/-- Claim C1, counterexample: with `is_dem = true` and `compress = true`
the profile identifier embedded in the enumerator's destination key
(`"jpeg"`, from `enumProfile`) differs from the profile identifier
actually selected by `process_cog_with_params` (`"deflate"`, from
`selectProfile`): the job uploads an artifact produced under the
`"deflate"` profile to a key ending in `_COG_jpeg.tif`. -/
theorem c1_counterexample :
    Ev.upload "a/b_COG_jpeg.tif" "/tmp/u_COG_deflate.tif" ∈
      (runJob { baseCfg with compress := true, is_dem := true } allOkEnv "a/b.tif").1 ∧
    Ev.translate "/tmp/u_COG_deflate.tif" "deflate"
        (selectOptions default_profile_options true true false ["uint8"]) false ∈
      (runJob { baseCfg with compress := true, is_dem := true } allOkEnv "a/b.tif").1 ∧
    enumProfile true ≠ selectProfile true true := by
  decide

/-- Claim C1, amended: for every combination of classification flags other
than `is_dem = true` together with `compress = true`, the enumerator's
destination key (source stem, then `_COG_`, then profile, then source
extension, in the source key's directory) embeds exactly the profile
identifier selected by `process_cog_with_params`. -/
theorem c1_amended (compress is_dem : Bool) (key : String)
    (h : ¬(compress = true ∧ is_dem = true)) :
    withCogName key (enumProfile compress) = withCogName key (selectProfile compress is_dem) := by
  cases compress <;> cases is_dem <;> simp_all [enumProfile, selectProfile]

/-- Witness for `c1_amended` at `compress = true, is_dem = false`. -/
theorem c1_amended_witness :
    withCogName "a/b.tif" (enumProfile true) = withCogName "a/b.tif" (selectProfile true false) :=
  c1_amended true false "a/b.tif" (by decide)

/-- Claim C2, code bug: `process_cog_with_params` computes the
`cog_validate` verdict but discards it (main.py line 152), so a job whose
artifact fails structural validation still has `upload_file` invoked and
terminates successfully. -/
theorem c2_upload_after_failed_validation :
    Ev.validate "/tmp/u_COG_deflate.tif" false ∈ (runJob baseCfg invalidCogEnv "a/b.tif").1 ∧
    Ev.upload "a/b_COG_deflate.tif" "/tmp/u_COG_deflate.tif" ∈
      (runJob baseCfg invalidCogEnv "a/b.tif").1 ∧
    (runJob baseCfg invalidCogEnv "a/b.tif").2 = Outcome.success := by
  decide

/-- Claim C3, counterexample: one defaulted call of
`process_cog_with_params` with `is_dem = true` and `dtypes = [int16]`
mutates the module-level default `profile_options` dict in place (it gains
`PREDICTOR` and `RESAMPLING` bindings), so the next defaulted call starts
from a mapping different from the original default. -/
theorem c3_counterexample :
    defaultAfterCall false true false ["int16"] ≠ default_profile_options := by
  decide

/-- Claim C3, amended: the Profile Selector mutates the shared default
option mapping in place; the module-level default is left unchanged by a
call exactly when both `is_dem` and `compress` are false (otherwise the
mutation is observable in the mapping the next defaulted call starts
from). -/
theorem c3_amended (compress is_dem smooth_dem : Bool) (dtypes : List String) :
    defaultAfterCall compress is_dem smooth_dem dtypes = default_profile_options ↔
      (is_dem = false ∧ compress = false) := by
  cases is_dem <;> cases compress <;> cases smooth_dem <;>
      cases h : dtypes.all (fun x => x = "float32") <;>
    simp only [defaultAfterCall, selectOptions, h] <;> decide

/-- Claim C4: with `overwrite = false` and the destination key already in
the destination store, the job is skipped: its trace is exactly the one
existence check (no replication, acquisition, transcode or upload event)
and its outcome is `skipped`, not a failure. -/
theorem c4_skip (cfg : Cfg) (env : ListEnv) (key : String)
    (hov : cfg.overwrite = false)
    (hex : env.existsAtDest (withCogName key (enumProfile cfg.compress)) = true) :
    runJob cfg env key =
      ([Ev.checkExists (withCogName key (enumProfile cfg.compress))], Outcome.skipped) := by
  simp [runJob, hov, hex]

/-- Witness for `c4_skip` on a concrete job. -/
theorem c4_skip_witness :
    runJob baseCfg destExistsEnv "a/b.tif" =
      ([Ev.checkExists (withCogName "a/b.tif" (enumProfile baseCfg.compress))],
        Outcome.skipped) :=
  c4_skip baseCfg destExistsEnv "a/b.tif" rfl rfl

/-- Claim C5, counterexample: the loop body of `process_cog_list` has no
per-job exception handler, so when the second of three jobs raises a
transcode failure the batch aborts: only J1 and J2 have recorded outcomes
and J3 is never processed. -/
theorem c5_counterexample :
    (process_cog_list (TiffKeys.list ["a/j1.tif", "a/j2.tif", "a/j3.tif"])
        baseCfg midFailEnv).2 =
      [("a/j1.tif", Outcome.success), ("a/j2.tif", Outcome.errored Err.transcodeFailure)] := by
  decide

/-- Claim C5, amended: a failure raised while processing one job aborts
the batch — the failing job is the batch's last recorded job and every
later key in the list is left unprocessed. -/
theorem c5_amended (cfg : Cfg) (env : ListEnv) (key : String) (ks : List String) (e : Err)
    (h : (runJob cfg env key).2 = Outcome.errored e) :
    runJobs cfg env (key :: ks) = ((runJob cfg env key).1, [(key, Outcome.errored e)]) := by
  simp [runJobs, h]

/-- Witness for `c5_amended`: a failing download on the first of two jobs
ends the batch. -/
theorem c5_amended_witness :
    runJobs baseCfg downloadFailEnv ["a/x.tif", "a/y.tif"] =
      ((runJob baseCfg downloadFailEnv "a/x.tif").1,
        [("a/x.tif", Outcome.errored Err.storageIO)]) :=
  c5_amended baseCfg downloadFailEnv "a/x.tif" ["a/y.tif"] Err.storageIO (by decide)

/-- Claim C6, counterexample: a `bytes` input to `process_cog_with_params`
creates a temporary file (`NamedTemporaryFile(delete=False)`, main.py
line 80) that no code path ever releases — the call's trace creates two
scratch files and releases none. -/
theorem c6_counterexample :
    createdPaths (process_cog_with_params SourceData.bytesData bytesPEnv
        false false false false).1 =
      ["/tmp/b.tiff", "/tmp/b_COG_deflate.tiff"] ∧
    releasedPaths (process_cog_with_params SourceData.bytesData bytesPEnv
        false false false false).1 = [] := by
  decide

/-- Claim C6, amended: for every job run by `process_cog_list`, on every
outcome, the scratch files created during the job (preloaded input file
and local output artifact) are exactly the scratch files released by the
job's termination, each exactly once; but the temporary file a `bytes`
input to `process_cog_with_params` is written to is created and never
released by any code in the repository. -/
theorem c6_amended :
    (∀ (cfg : Cfg) (env : ListEnv) (key : String),
        createdPaths (runJob cfg env key).1 = releasedPaths (runJob cfg env key).1) ∧
    (∀ (pe : PEnv) (compress is_dem smooth_dem web_optimized : Bool),
        (pe.temp_dir ++ "/" ++ pe.tempName ++ ".tiff") ∈
          createdPaths (process_cog_with_params SourceData.bytesData pe
            compress is_dem smooth_dem web_optimized).1 ∧
        releasedPaths (process_cog_with_params SourceData.bytesData pe
          compress is_dem smooth_dem web_optimized).1 = []) := by
  constructor
  · intro cfg env key
    rcases cfg with ⟨bn, rep, pre, ov, co, dem, sm, web⟩
    cases rep <;> cases pre <;> cases ov <;>
        cases hex : env.existsAtDest (withCogName key (enumProfile co)) <;>
        cases htr : env.transferOk key <;>
        cases hdl : env.downloadOk key <;>
        cases hro : env.remoteOpenOk key <;>
        cases hto : env.transcodeOk key <;>
      simp_all [runJob, process_cog_with_params, transcodeSteps, jobPEnv, uploadPhase,
        createdPaths, releasedPaths]
  · intro pe compress is_dem smooth_dem web_optimized
    cases hto : pe.transcodeOk <;>
      simp [process_cog_with_params, transcodeSteps, hto, createdPaths, releasedPaths]

/-- Claim C7, counterexample: `float64` is a floating-point sample type,
yet a DEM dataset with `dtypes = [float64]` gets `PREDICTOR = 2`, because
the code compares each dtype to the literal `"float32"`
(main.py line 109), not to "floating point". -/
theorem c7_counterexample :
    isFloatingDtype "float64" = true ∧
    lookupOpt (selectOptions default_profile_options false true false ["float64"])
        "PREDICTOR" = some (OptVal.nat 2) := by
  decide

/-- Claim C7, amended: for every dataset processed with `is_dem = true`,
the chosen option mapping sets `PREDICTOR = 3` exactly when every band's
sample type is the literal `float32`, and `PREDICTOR = 2` otherwise (in
particular `[float32] ↦ 3` and `[int16] ↦ 2`, but `float64` bands also
yield 2). -/
theorem c7_amended (compress smooth_dem : Bool) (dtypes : List String) :
    lookupOpt (selectOptions default_profile_options compress true smooth_dem dtypes)
        "PREDICTOR" =
      some (OptVal.nat (if dtypes.all (fun x => x = "float32") then 3 else 2)) := by
  cases compress <;> cases h : dtypes.all (fun x => x = "float32") <;> cases smooth_dem <;>
    simp only [selectOptions, h] <;> decide

/-- Claim C8: a local-path input to `process_cog_with_params` that does
not reference an existing file raises before anything happens: the call's
trace is empty (no temporary file created, no dataset opened, no
transcode) and the result is the `InvalidInput` error. -/
theorem c8_invalid_input (p : String) (pe : PEnv)
    (compress is_dem smooth_dem web_optimized : Bool)
    (h : pe.isFile = false) :
    process_cog_with_params (SourceData.localPath p) pe
        compress is_dem smooth_dem web_optimized =
      ([], Except.error Err.invalidInput) := by
  simp [process_cog_with_params, h]

/-- Witness for `c8_invalid_input` on a concrete missing path. -/
theorem c8_invalid_input_witness :
    process_cog_with_params (SourceData.localPath "/data/missing.tif") missingFilePEnv
        false false false false =
      ([], Except.error Err.invalidInput) :=
  c8_invalid_input "/data/missing.tif" missingFilePEnv false false false false rfl

/-- Claim C9: `process_cog_list` on a single string key behaves exactly
like `process_cog_list` on the one-element list of that key — same event
trace and same outcomes (main.py lines 195-197 wrap the string). -/
theorem c9_singleton (s : String) (cfg : Cfg) (env : ListEnv) :
    process_cog_list (TiffKeys.str s) cfg env =
      process_cog_list (TiffKeys.list [s]) cfg env := rfl

/-- Claim C10: every `process_cog_list` invocation's very first store
operation is the construction of the working bucket with `is_new = True`
and `is_public = True` (main.py line 199) — in particular it happens
before any per-job processing, for every key list, including batches in
which every job is skipped. -/
theorem c10_bucket_init (tiff_keys : TiffKeys) (cfg : Cfg) (env : ListEnv) :
    (process_cog_list tiff_keys cfg env).1.head? =
      some (Ev.bucketInit cfg.bucket_name true true) := rfl

end CogGen
